import Mathlib

/-!
Verification of the rule store and event-session core of the
homeassistant-for-openclaw plugin.

The repository contains two near-duplicate rule engines:
the "watcher" variant (watcher-store + HAWatcherService, delivering
through session injection) and the "listener" variant (listener-store +
HAListenerService, delivering through an external command).  Both are
embedded here.

Conventions of the embedding:
* TypeScript optional string fields (`fromState?: string`) become
  `Option String`; JavaScript truthiness of a string value (`if (s)`)
  is `strTruthy`, which is false for both `undefined` and `""`.
* The persisted store file is modelled by `StoreFile`: the code only
  distinguishes a read failure, a JSON.parse failure, a parsed
  non-array, and a parsed array whose elements it casts to rule
  records without validation.
* `randomUUID()` and `new Date().toISOString()` are external inputs;
  they appear as explicit string parameters of `addWatcher` /
  `addListener`.  `.slice(0, 8)` is `uuidSlice8`.
* The WebSocket session of HAWatcherService is a state machine
  (`Session`, `step`): external stimuli (socket open/close/error,
  timer fire, inbound protocol message, start/stop calls) map a state
  to a new state plus a list of observable outputs (connection
  attempts, scheduled reconnect delays in milliseconds, sent protocol
  messages, socket closes).
-/

namespace HomeAssistant

/-- JavaScript truthiness of a `string | undefined` value:
`undefined` and the empty string are falsy. -/
def strTruthy : Option String → Bool
  | none => false
  | some s => s != ""

-- ---- Rule records (watcher-store.ts / listener-store.ts) ----

/-- A watcher rule record (`Watcher` in watcher-store.ts). -/
structure Watcher where
  id : String
  entityId : String
  fromState : Option String := none
  toState : Option String := none
  message : String
  oneShot : Bool
  createdAt : String
deriving DecidableEq, Repr

/-- `WatcherInput = Omit<Watcher, "id" | "createdAt">`. -/
structure WatcherInput where
  entityId : String
  fromState : Option String := none
  toState : Option String := none
  message : String
  oneShot : Bool
deriving DecidableEq, Repr

/-- A listener rule record (`Listener` in listener-store.ts); same
fields as `Watcher`. -/
structure Listener where
  id : String
  entityId : String
  fromState : Option String := none
  toState : Option String := none
  message : String
  oneShot : Bool
  createdAt : String
deriving DecidableEq, Repr

/-- `ListenerInput = Omit<Listener, "id" | "createdAt">`. -/
structure ListenerInput where
  entityId : String
  fromState : Option String := none
  toState : Option String := none
  message : String
  oneShot : Bool
deriving DecidableEq, Repr

/-- Field-for-field renaming of a `Listener` into a `Watcher`. -/
def Listener.toWatcher (l : Listener) : Watcher :=
  { id := l.id, entityId := l.entityId, fromState := l.fromState,
    toState := l.toState, message := l.message, oneShot := l.oneShot,
    createdAt := l.createdAt }

-- ---- Matching (watcher-store.ts matchesWatcher, listener-store.ts matchesListener) ----

/-- `matchesWatcher(watcher, entityId, oldState, newState)`:
```
if (watcher.entityId !== entityId) return false;
if (oldState === newState) return false;
if (watcher.fromState && watcher.fromState !== oldState) return false;
if (watcher.toState && watcher.toState !== newState) return false;
return true;
```
-/
def matchesWatcher (watcher : Watcher) (entityId oldState newState : String) : Bool :=
  if watcher.entityId != entityId then false
  else if oldState == newState then false
  else if strTruthy watcher.fromState && (watcher.fromState != some oldState) then false
  else if strTruthy watcher.toState && (watcher.toState != some newState) then false
  else true

/-- `matchesListener`, textually identical to `matchesWatcher`. -/
def matchesListener (listener : Listener) (entityId oldState newState : String) : Bool :=
  if listener.entityId != entityId then false
  else if oldState == newState then false
  else if strTruthy listener.fromState && (listener.fromState != some oldState) then false
  else if strTruthy listener.toState && (listener.toState != some newState) then false
  else true

-- ---- Formatting (formatWatcher / formatListener) ----

/-- One entry of the trigger-description array:
`w.fromState ? `from "${w.fromState}"` : null` (and likewise for
`to`); the ternary uses truthiness, and `.filter(Boolean)` drops the
null, so an absent or empty value contributes nothing. -/
def triggerPart (lbl : String) (v : Option String) : List String :=
  match v with
  | none => []
  | some s => if s == "" then [] else [lbl ++ "\"" ++ s ++ "\""]

/-- `formatWatcher(w)`:
```
const trigger = [w.fromState ? ... : null, w.toState ? ... : null]
    .filter(Boolean).join(" → ");
const triggerStr = trigger || "any state change";
const mode = w.oneShot ? "one-shot" : "recurring";
return `[${w.id}] `${w.entityId}` ${triggerStr} (${mode}) → "${w.message}"`;
```
-/
def formatWatcher (w : Watcher) : String :=
  let trigger := String.intercalate " → "
    (triggerPart "from " w.fromState ++ triggerPart "to " w.toState)
  let triggerStr := if trigger == "" then "any state change" else trigger
  let mode := if w.oneShot then "one-shot" else "recurring"
  "[" ++ w.id ++ "] `" ++ w.entityId ++ "` " ++ triggerStr ++ " (" ++ mode
    ++ ") → \"" ++ w.message ++ "\""

/-- `formatListener`, textually identical to `formatWatcher`. -/
def formatListener (l : Listener) : String :=
  let trigger := String.intercalate " → "
    (triggerPart "from " l.fromState ++ triggerPart "to " l.toState)
  let triggerStr := if trigger == "" then "any state change" else trigger
  let mode := if l.oneShot then "one-shot" else "recurring"
  "[" ++ l.id ++ "] `" ++ l.entityId ++ "` " ++ triggerStr ++ " (" ++ mode
    ++ ") → \"" ++ l.message ++ "\""

-- ---- The persisted store file ----

/-- The durable rule-store file, as distinguished by the load code:
```
try {
    const raw = await fs.readFile(filePath, "utf8");
    const parsed = JSON.parse(raw);
    if (!Array.isArray(parsed)) return [];
    return parsed as Watcher[];
} catch { return []; }
```
`missing` is a rejected read (absent file or I/O error), `unparsable`
is content on which `JSON.parse` throws, `nonArray` is a parsed JSON
value for which `Array.isArray` is false, and `array` is a parsed
JSON array, whose elements the code casts to rule records without
validation. -/
inductive StoreFile (α : Type) where
  | missing : StoreFile α
  | unparsable (raw : String) : StoreFile α
  | nonArray : StoreFile α
  | array (rules : List α) : StoreFile α
deriving DecidableEq, Repr

/-- `loadWatchers(stateDir)`: both catch branches and the
`Array.isArray` guard yield the empty list, so the caller never sees
an error. -/
def loadWatchers : StoreFile Watcher → List Watcher
  | .missing => []
  | .unparsable _ => []
  | .nonArray => []
  | .array ws => ws

/-- `saveWatchers(stateDir, watchers)`: whole-file overwrite with the
JSON array of the given records. -/
def saveWatchers (watchers : List Watcher) : StoreFile Watcher :=
  .array watchers

/-- `loadListeners(stateDir)`, textually identical to `loadWatchers`. -/
def loadListeners : StoreFile Listener → List Listener
  | .missing => []
  | .unparsable _ => []
  | .nonArray => []
  | .array ls => ls

/-- `saveListeners(stateDir, listeners)`. -/
def saveListeners (listeners : List Listener) : StoreFile Listener :=
  .array listeners

/-- `randomUUID().slice(0, 8)`, with the UUID string supplied as an
explicit parameter. -/
def uuidSlice8 (uuid : String) : String :=
  String.mk (uuid.data.take 8)

/-- `addWatcher(stateDir, input)`: load, build the new record with a
generated id and timestamp, append, save, return the record.  The
generated UUID and the current ISO timestamp are parameters. -/
def addWatcher (file : StoreFile Watcher) (uuid now : String)
    (input : WatcherInput) : StoreFile Watcher × Watcher :=
  let watchers := loadWatchers file
  let watcher : Watcher :=
    { id := uuidSlice8 uuid, entityId := input.entityId,
      fromState := input.fromState, toState := input.toState,
      message := input.message, oneShot := input.oneShot, createdAt := now }
  (saveWatchers (watchers ++ [watcher]), watcher)

/-- `removeWatcher(stateDir, id)`: load, find by id, splice out and
save when found; otherwise report false without writing. -/
def removeWatcher (file : StoreFile Watcher) (id : String) :
    StoreFile Watcher × Bool :=
  let watchers := loadWatchers file
  match watchers.findIdx? (fun w => w.id == id) with
  | none => (file, false)
  | some idx => (saveWatchers (watchers.eraseIdx idx), true)

/-- `addListener(stateDir, input)`, textually identical to
`addWatcher`. -/
def addListener (file : StoreFile Listener) (uuid now : String)
    (input : ListenerInput) : StoreFile Listener × Listener :=
  let listeners := loadListeners file
  let listener : Listener :=
    { id := uuidSlice8 uuid, entityId := input.entityId,
      fromState := input.fromState, toState := input.toState,
      message := input.message, oneShot := input.oneShot, createdAt := now }
  (saveListeners (listeners ++ [listener]), listener)

/-- `removeListener(stateDir, id)`. -/
def removeListener (file : StoreFile Listener) (id : String) :
    StoreFile Listener × Bool :=
  let listeners := loadListeners file
  match listeners.findIdx? (fun l => l.id == id) with
  | none => (file, false)
  | some idx => (saveListeners (listeners.eraseIdx idx), true)

-- ---- State-changed event handling ----

/-- The `{ state, attributes }` snapshot of an entity; of the
attributes only `friendly_name` is ever consulted, so it is the only
one modelled. -/
structure StateSnap where
  state : String
  friendly_name : Option String := none
deriving DecidableEq, Repr

/-- The `data` payload of a `state_changed` event; `old_state` and
`new_state` are nullable/optional. -/
structure StateChangedData where
  entity_id : String
  old_state : Option StateSnap := none
  new_state : Option StateSnap := none
deriving DecidableEq, Repr

/-- Observable effects of one `handleStateChanged` call: the trigger
texts handed to the delivery sink in order, and the single
whole-store overwrite (`none` when the handler never writes). -/
structure HandlerResult (α : Type) where
  delivered : List String
  newStore : Option (List α)
deriving DecidableEq, Repr

/-- The trigger text built by HAWatcherService.handleStateChanged. -/
def watcherTriggerText (friendlyName entityId oldState newState msg : String) : String :=
  "[Home Assistant Event] " ++ friendlyName ++ " (`" ++ entityId ++ "`) "
    ++ "changed from \"" ++ oldState ++ "\" to \"" ++ newState ++ "\".\n"
    ++ "Watcher message: " ++ msg

/-- The trigger text built by HAListenerService.handleStateChanged. -/
def listenerTriggerText (friendlyName entityId oldState newState msg : String) : String :=
  "[Home Assistant Event] " ++ friendlyName ++ " (`" ++ entityId ++ "`) "
    ++ "changed from \"" ++ oldState ++ "\" to \"" ++ newState ++ "\".\n"
    ++ "Listener message: " ++ msg

/-- `HAWatcherService.handleStateChanged(event)`.  The watcher list is
the fresh `loadWatchers` snapshot and `sessionKey` is the value
returned by `config.resolveSessionKey()`.  Mirrors the source:
missing snapshots, an unchanged state string, no matches, or a falsy
session key (`if (!sessionKey)`: undefined or the empty string) each
return early with no delivery and no write; otherwise every matched
rule is delivered, and if any matched rule is one-shot the store is
rewritten once, keeping exactly the loaded rules whose id is not
among the fired one-shot ids. -/
def handleStateChangedW (watchers : List Watcher) (sessionKey : Option String)
    (d : StateChangedData) : HandlerResult Watcher :=
  match d.old_state, d.new_state with
  | some oldSt, some newSt =>
    let oldStateStr := oldSt.state
    let newStateStr := newSt.state
    if oldStateStr == newStateStr then ⟨[], none⟩
    else
      let matched := watchers.filter
        (fun w => matchesWatcher w d.entity_id oldStateStr newStateStr)
      if matched.isEmpty then ⟨[], none⟩
      else if !(strTruthy sessionKey) then ⟨[], none⟩
      else
        let friendlyName := newSt.friendly_name.getD d.entity_id
        let delivered := matched.map (fun w =>
          watcherTriggerText friendlyName d.entity_id oldStateStr newStateStr w.message)
        let firedOneShotIds := (matched.filter (fun w => w.oneShot)).map (fun w => w.id)
        if firedOneShotIds.isEmpty then ⟨delivered, none⟩
        else
          ⟨delivered,
           some (watchers.filter (fun w => !(firedOneShotIds.contains w.id)))⟩
  | _, _ => ⟨[], none⟩

/-- `HAListenerService.handleStateChanged(event)`: identical to the
watcher variant except that there is no session-key guard (delivery
spawns an external command instead). -/
def handleStateChangedL (listeners : List Listener)
    (d : StateChangedData) : HandlerResult Listener :=
  match d.old_state, d.new_state with
  | some oldSt, some newSt =>
    let oldStateStr := oldSt.state
    let newStateStr := newSt.state
    if oldStateStr == newStateStr then ⟨[], none⟩
    else
      let matched := listeners.filter
        (fun l => matchesListener l d.entity_id oldStateStr newStateStr)
      if matched.isEmpty then ⟨[], none⟩
      else
        let friendlyName := newSt.friendly_name.getD d.entity_id
        let delivered := matched.map (fun l =>
          listenerTriggerText friendlyName d.entity_id oldStateStr newStateStr l.message)
        let firedOneShotIds := (matched.filter (fun l => l.oneShot)).map (fun l => l.id)
        if firedOneShotIds.isEmpty then ⟨delivered, none⟩
        else
          ⟨delivered,
           some (listeners.filter (fun l => !(firedOneShotIds.contains l.id)))⟩
  | _, _ => ⟨[], none⟩

/-- The store content after a handler run: the overwrite when one
happened, otherwise the untouched loaded content. -/
def finalStore {α : Type} (r : HandlerResult α) (loaded : List α) : List α :=
  (r.newStore).getD loaded

-- ---- HAWatcherService session state machine ----

/-- Inbound protocol messages (`HAWebSocketMessage`).  The event
variant only records whether the envelope is a `state_changed` event;
its store-side processing is `handleStateChangedW` above and does not
touch the connection state. -/
inductive HAMsg where
  | authRequired (haVersion : String)
  | authOk (haVersion : String)
  | authInvalid (message : String)
  | result (id : Nat) (success : Bool) (error : Option (String × String))
  | event (id : Nat) (d : StateChangedData)
  | pong (id : Nat)
deriving DecidableEq, Repr

/-- Mutable fields of `HAWatcherService`: whether `this.ws` is a live
socket, the outgoing message-id counter, whether the reconnect /
keepalive timers are set, the current backoff delay in milliseconds,
and the stopped flag. -/
structure Session where
  wsLive : Bool
  msgId : Nat
  reconnectTimer : Bool
  pingTimer : Bool
  reconnectDelay : Nat
  stopped : Bool
deriving DecidableEq, Repr

/-- Field values set by the constructor of `HAWatcherService`. -/
def Session.initial : Session :=
  { wsLive := false, msgId := 0, reconnectTimer := false,
    pingTimer := false, reconnectDelay := 1000, stopped := false }

/-- External stimuli driving the session: the socket callbacks
(`onopen`, `onclose`, `onerror`), the two timers firing, an inbound
parsed message, and the public `start` / `stop` calls. -/
inductive SEvent where
  | sockOpen
  | sockClose
  | sockError
  | reconnectFire
  | pingFire
  | msg (m : HAMsg)
  | startCall
  | stopCall
deriving DecidableEq, Repr

/-- Observable outputs of a step. -/
inductive SOut where
  | attempt
  | scheduled (delayMs : Nat)
  | sentAuth
  | sentSubscribe (id : Nat)
  | sentPing (id : Nat)
  | closedWs
deriving DecidableEq, Repr

/-- `scheduleReconnect()`:
```
if (this.stopped) return;
const delay = this.reconnectDelay;
this.reconnectDelay = Math.min(this.reconnectDelay * 2, 30_000);
this.reconnectTimer = setTimeout(..., delay);
```
-/
def scheduleReconnect (s : Session) : Session × List SOut :=
  if s.stopped then (s, [])
  else
    ({ s with reconnectDelay := min (s.reconnectDelay * 2) 30000,
              reconnectTimer := true },
     [.scheduled s.reconnectDelay])

/-- `connect()`: returns at once when stopped, otherwise constructs a
new WebSocket (the successful-construction path; a constructor throw
is not modelled because no claim depends on it). -/
def connect (s : Session) : Session × List SOut :=
  if s.stopped then (s, [])
  else ({ s with wsLive := true }, [.attempt])

/-- `clearTimers()`. -/
def clearTimers (s : Session) : Session :=
  { s with reconnectTimer := false, pingTimer := false }

/-- `handleMessage(msg)`.  `send` is a no-op without a live open
socket, hence the `wsLive` guards on the sent outputs. -/
def handleMessage (s : Session) (m : HAMsg) : Session × List SOut :=
  match m with
  | .authRequired _ => (s, if s.wsLive then [.sentAuth] else [])
  | .authOk _ =>
    let s1 := { s with msgId := s.msgId + 1 }
    let subOut := if s1.wsLive then [SOut.sentSubscribe s1.msgId] else []
    ({ s1 with pingTimer := true }, subOut)
  | .authInvalid _ =>
    ({ s with stopped := true }, if s.wsLive then [.closedWs] else [])
  | .result _ _ _ => (s, [])
  | .event _ _ => (s, [])
  | .pong _ => (s, [])

/-- One step of the session machine. -/
def step (s : Session) : SEvent → Session × List SOut
  | .sockOpen => ({ s with reconnectDelay := 1000 }, [])
  | .sockClose => scheduleReconnect { (clearTimers s) with wsLive := false }
  | .sockError => (s, [])
  | .reconnectFire =>
    if s.reconnectTimer then
      connect { s with reconnectTimer := false, msgId := 0 }
    else (s, [])
  | .pingFire =>
    if s.pingTimer then
      ({ s with msgId := s.msgId + 1 },
       if s.wsLive then [SOut.sentPing (s.msgId + 1)] else [])
    else (s, [])
  | .msg m => handleMessage s m
  | .startCall => connect { s with stopped := false }
  | .stopCall =>
    ({ (clearTimers s) with stopped := true, wsLive := false },
     if s.wsLive then [.closedWs] else [])

/-- Run a list of stimuli, accumulating outputs in order. -/
def run (s : Session) : List SEvent → Session × List SOut
  | [] => (s, [])
  | e :: es =>
    let r1 := step s e
    let r2 := run r1.1 es
    (r2.1, r1.2 ++ r2.2)

/-- The reconnect delays scheduled in an output trace, in order. -/
def scheduledDelays (outs : List SOut) : List Nat :=
  outs.filterMap (fun o => match o with | .scheduled d => some d | _ => none)

/-- Outputs that attempt or schedule a connection. -/
def isConnActivity : SOut → Bool
  | .attempt => true
  | .scheduled _ => true
  | _ => false

/-- A freshly connected session whose current backoff delay is `d`:
the shape of the state right after a connection attempt. -/
def connState (d : Nat) : Session :=
  { wsLive := true, msgId := 0, reconnectTimer := false,
    pingTimer := false, reconnectDelay := d, stopped := false }

/-- The stimulus trace of `n` consecutive failed connection attempts
with no intervening successful open: each failure is a socket close
followed by the reconnect timer firing. -/
def failTrace : Nat → List SEvent
  | 0 => []
  | n + 1 => .sockClose :: .reconnectFire :: failTrace n

-- ---- Reachable store states ----

/-- Store files producible by any finite sequence of `addWatcher`,
`removeWatcher`, and event-driven one-shot retirement, starting from
the empty store (absent file).  The UUID and timestamp fed to each
add are arbitrary, exactly as the code accepts whatever
`randomUUID()` returns. -/
inductive ReachableW : StoreFile Watcher → Prop where
  | init : ReachableW .missing
  | add (f : StoreFile Watcher) (uuid now : String) (input : WatcherInput) :
      ReachableW f → ReachableW (addWatcher f uuid now input).1
  | remove (f : StoreFile Watcher) (id : String) :
      ReachableW f → ReachableW (removeWatcher f id).1
  | retire (f : StoreFile Watcher) (sessionKey : Option String)
      (d : StateChangedData) (ws : List Watcher) :
      ReachableW f →
      (handleStateChangedW (loadWatchers f) sessionKey d).newStore = some ws →
      ReachableW (saveWatchers ws)

/-- Like `ReachableW`, but every add is constrained to draw a UUID
whose 8-character id prefix is not already an id in the store — the
fresh-id discipline the spec ascribes to `add`. -/
inductive ReachableFreshW : StoreFile Watcher → Prop where
  | init : ReachableFreshW .missing
  | add (f : StoreFile Watcher) (uuid now : String) (input : WatcherInput) :
      ReachableFreshW f →
      uuidSlice8 uuid ∉ (loadWatchers f).map (fun w => w.id) →
      ReachableFreshW (addWatcher f uuid now input).1
  | remove (f : StoreFile Watcher) (id : String) :
      ReachableFreshW f → ReachableFreshW (removeWatcher f id).1
  | retire (f : StoreFile Watcher) (sessionKey : Option String)
      (d : StateChangedData) (ws : List Watcher) :
      ReachableFreshW f →
      (handleStateChangedW (loadWatchers f) sessionKey d).newStore = some ws →
      ReachableFreshW (saveWatchers ws)

-- ---- The matching predicate in the words of the spec ----

/-- Matching condition as worded by the spec (for comparison with the
source-derived `matchesWatcher`): the rule entity equals the event
entity, the state actually changed, `fromState` is unset or equals
the old state, and `toState` is unset or equals the new state. -/
def specMatches (w : Watcher) (entityId oldState newState : String) : Prop :=
  w.entityId = entityId ∧ oldState ≠ newState ∧
    (w.fromState = none ∨ w.fromState = some oldState) ∧
    (w.toState = none ∨ w.toState = some newState)

instance (w : Watcher) (e o n : String) : Decidable (specMatches w e o n) := by
  unfold specMatches; infer_instance

-- ---- Theorems ----

theorem matchesListener_eq (l : Listener) (e o n : String) :
    matchesListener l e o n = matchesWatcher l.toWatcher e o n := rfl

theorem formatListener_eq (l : Listener) :
    formatListener l = formatWatcher l.toWatcher := rfl

theorem matchesWatcher_iff (w : Watcher) (e o n : String) :
    matchesWatcher w e o n = true ↔
      w.entityId = e ∧ o ≠ n ∧
      (w.fromState = none ∨ w.fromState = some "" ∨ w.fromState = some o) ∧
      (w.toState = none ∨ w.toState = some "" ∨ w.toState = some n) := by
  rcases w with ⟨id, eid, fs, ts, msg, sh, ca⟩
  simp only [matchesWatcher]
  cases fs <;> cases ts <;> simp [strTruthy]

/-- C1 (counterexample): a rule whose `fromState` is the empty string
is treated by the code as having no from-filter, so it matches a
transition whose old state differs from it, while the spec predicate
(fromState unset or equal to the old state) rejects it. -/
theorem matches_empty_fromState_breaks_spec_iff :
    matchesWatcher
      { id := "w1", entityId := "light.bedroom", fromState := some "",
        message := "m", oneShot := true, createdAt := "" }
      "light.bedroom" "off" "on" = true ∧
    ¬ specMatches
      { id := "w1", entityId := "light.bedroom", fromState := some "",
        message := "m", oneShot := true, createdAt := "" }
      "light.bedroom" "off" "on" := by
  constructor
  · decide
  · decide

/-- C1 (amended): `matchesWatcher` / `matchesListener` return true
exactly when the rule entity equals the event entity, the old state
differs from the new state, `fromState` is unset or empty or equals
the old state, and `toState` is unset or empty or equals the new
state. -/
theorem matches_iff_amended_unset_or_empty (w : Watcher) (l : Listener)
    (e o n : String) :
    (matchesWatcher w e o n = true ↔
      w.entityId = e ∧ o ≠ n ∧
      (w.fromState = none ∨ w.fromState = some "" ∨ w.fromState = some o) ∧
      (w.toState = none ∨ w.toState = some "" ∨ w.toState = some n)) ∧
    (matchesListener l e o n = true ↔
      l.entityId = e ∧ o ≠ n ∧
      (l.fromState = none ∨ l.fromState = some "" ∨ l.fromState = some o) ∧
      (l.toState = none ∨ l.toState = some "" ∨ l.toState = some n)) :=
  ⟨matchesWatcher_iff w e o n, matchesWatcher_iff l.toWatcher e o n⟩

/-- C5: loading an absent file, an unparsable file, or a parsed
non-array yields the empty rule list in both store variants; the
embedding of each load routine is a total function into lists, the
image of the catch-all in the source, so no error reaches the
caller. -/
theorem load_fail_open_returns_empty (raw : String) :
    loadWatchers .missing = [] ∧
    loadWatchers (.unparsable raw) = [] ∧
    loadWatchers .nonArray = [] ∧
    loadListeners .missing = [] ∧
    loadListeners (.unparsable raw) = [] ∧
    loadListeners .nonArray = [] :=
  ⟨rfl, rfl, rfl, rfl, rfl, rfl⟩

/-- C9: the pure rule logic of the two variants coincides — matching
and formatting of a listener agree with those of the identically
populated watcher. -/
theorem listener_watcher_variants_agree (l : Listener) (e o n : String) :
    matchesListener l e o n = matchesWatcher l.toWatcher e o n ∧
    formatListener l = formatWatcher l.toWatcher :=
  ⟨rfl, rfl⟩


/-- Retiring fired one-shot ids filters exactly the matched one-shot
rules when ids are pairwise distinct in the loaded list. -/
theorem filter_fired_eq {α : Type} (idOf : α → String) (shot mtch : α → Bool)
    (l : List α) (hnd : (l.map idOf).Nodup) :
    l.filter (fun x => !((((l.filter mtch).filter shot).map idOf).contains (idOf x))) =
    l.filter (fun x => !(mtch x && shot x)) := by
  apply List.filter_congr
  intro x hx
  have key : ((((l.filter mtch).filter shot).map idOf).contains (idOf x)) = (mtch x && shot x) := by
    rw [show (((l.filter mtch).filter shot).map idOf).contains (idOf x)
          = decide (idOf x ∈ ((l.filter mtch).filter shot).map idOf)
        from List.elem_eq_mem _ _]
    by_cases h : mtch x = true ∧ shot x = true
    · have hmem : idOf x ∈ ((l.filter mtch).filter shot).map idOf :=
        List.mem_map_of_mem _ (List.mem_filter.mpr
          ⟨List.mem_filter.mpr ⟨hx, h.1⟩, h.2⟩)
      rw [decide_eq_true hmem, h.1, h.2]; rfl
    · have hnmem : idOf x ∉ ((l.filter mtch).filter shot).map idOf := by
        intro hmem
        rcases List.mem_map.mp hmem with ⟨y, hy, hidy⟩
        rcases List.mem_filter.mp hy with ⟨hy1, hyshot⟩
        rcases List.mem_filter.mp hy1 with ⟨hyl, hymtch⟩
        exact h (List.inj_on_of_nodup_map hnd hyl hx hidy ▸ ⟨hymtch, hyshot⟩)
      have hfalse : (mtch x && shot x) = false := by
        rcases Decidable.not_and_iff_or_not.mp h with h1 | h1 <;>
          simp [Bool.eq_false_iff.mpr h1]
      rw [decide_eq_false hnmem, hfalse]
  rw [key]


/-- A non-transition never matches. -/
theorem matchesWatcher_self_false (w : Watcher) (e s : String) :
    matchesWatcher w e s s = false := by
  simp [matchesWatcher]

/-- The watcher handler with a truthy session key available: the
final store content keeps exactly the loaded rules that are not
matched one-shot rules, assuming pairwise-distinct ids. -/
theorem finalStoreW_eq (ws : List Watcher) (sessionKey : Option String)
    (d : StateChangedData) (os ns : StateSnap)
    (h1 : d.old_state = some os) (h2 : d.new_state = some ns)
    (hk : strTruthy sessionKey = true)
    (hnd : (ws.map (fun w => w.id)).Nodup) :
    finalStore (handleStateChangedW ws sessionKey d) ws
      = ws.filter (fun w => !(matchesWatcher w d.entity_id os.state ns.state && w.oneShot)) := by
  obtain ⟨e, oldo, newo⟩ := d
  subst h1; subst h2
  simp only [handleStateChangedW]
  by_cases hss : os.state = ns.state
  · have hbeq : (os.state == ns.state) = true := by simp [hss]
    have hall : ∀ w ∈ ws, matchesWatcher w e os.state ns.state = false := by
      intro w _; simp [matchesWatcher, hss]
    simp only [hbeq, if_true, finalStore, Option.getD]
    exact (List.filter_eq_self.mpr (fun w hw => by simp [hall w hw])).symm
  · have hbeq : (os.state == ns.state) = false := by simp [hss]
    by_cases hm : ws.filter (fun w => matchesWatcher w e os.state ns.state) = []
    · have hall := List.filter_eq_nil_iff.mp hm
      simp only [hbeq, Bool.false_eq_true, if_false, hm, List.isEmpty_nil, if_true,
        finalStore, Option.getD]
      exact (List.filter_eq_self.mpr (fun w hw => by
        simp [Bool.eq_false_iff.mpr (hall w hw)])).symm
    · have hne : (ws.filter (fun w => matchesWatcher w e os.state ns.state)).isEmpty = false := by
        simpa [List.isEmpty_iff] using hm
      simp only [hbeq, Bool.false_eq_true, if_false, hne, hk, Bool.not_true]
      by_cases hf : (((ws.filter (fun w => matchesWatcher w e os.state ns.state)).filter
          (fun w => w.oneShot)).map (fun w => w.id)) = []
      · have hshot : (ws.filter (fun w => matchesWatcher w e os.state ns.state)).filter
            (fun w => w.oneShot) = [] :=
          List.map_eq_nil_iff.mp hf
        have hnone : ∀ w ∈ ws,
            (matchesWatcher w e os.state ns.state && w.oneShot) = false := by
          intro w hw
          cases hb : matchesWatcher w e os.state ns.state with
          | false => rfl
          | true =>
            cases hc : w.oneShot with
            | false => rfl
            | true =>
              exfalso
              have hmem : w ∈ (ws.filter
                  (fun x => matchesWatcher x e os.state ns.state)).filter
                  (fun x => x.oneShot) :=
                List.mem_filter.mpr ⟨List.mem_filter.mpr ⟨hw, hb⟩, hc⟩
              rw [hshot] at hmem
              exact (List.not_mem_nil w) hmem
        simp only [hf, List.isEmpty_nil, if_true, finalStore, Option.getD]
        exact (List.filter_eq_self.mpr (fun w hw => by simp [hnone w hw])).symm
      · have hfne : ((((ws.filter (fun w => matchesWatcher w e os.state ns.state)).filter
            (fun w => w.oneShot)).map (fun w => w.id))).isEmpty = false := by
          simpa [List.isEmpty_iff] using hf
        simp only [hfne, Bool.false_eq_true, if_false, finalStore, Option.getD]
        exact filter_fired_eq (fun w => w.id) (fun w => w.oneShot)
          (fun w => matchesWatcher w e os.state ns.state) ws hnd


/-- Listener-variant analogue of `finalStoreW_eq`; no session key is
involved. -/
theorem finalStoreL_eq (ls : List Listener) (d : StateChangedData)
    (os ns : StateSnap) (h1 : d.old_state = some os) (h2 : d.new_state = some ns)
    (hnd : (ls.map (fun l => l.id)).Nodup) :
    finalStore (handleStateChangedL ls d) ls
      = ls.filter (fun l => !(matchesListener l d.entity_id os.state ns.state && l.oneShot)) := by
  obtain ⟨e, oldo, newo⟩ := d
  subst h1; subst h2
  simp only [handleStateChangedL]
  by_cases hss : os.state = ns.state
  · have hbeq : (os.state == ns.state) = true := by simp [hss]
    have hall : ∀ l ∈ ls, matchesListener l e os.state ns.state = false := by
      intro l _; simp [matchesListener, hss]
    simp only [hbeq, if_true, finalStore, Option.getD]
    exact (List.filter_eq_self.mpr (fun l hl => by simp [hall l hl])).symm
  · have hbeq : (os.state == ns.state) = false := by simp [hss]
    by_cases hm : ls.filter (fun l => matchesListener l e os.state ns.state) = []
    · have hall := List.filter_eq_nil_iff.mp hm
      simp only [hbeq, Bool.false_eq_true, if_false, hm, List.isEmpty_nil, if_true,
        finalStore, Option.getD]
      exact (List.filter_eq_self.mpr (fun l hl => by
        simp [Bool.eq_false_iff.mpr (hall l hl)])).symm
    · have hne : (ls.filter (fun l => matchesListener l e os.state ns.state)).isEmpty = false := by
        simpa [List.isEmpty_iff] using hm
      simp only [hbeq, Bool.false_eq_true, if_false, hne]
      by_cases hf : (((ls.filter (fun l => matchesListener l e os.state ns.state)).filter
          (fun l => l.oneShot)).map (fun l => l.id)) = []
      · have hshot : (ls.filter (fun l => matchesListener l e os.state ns.state)).filter
            (fun l => l.oneShot) = [] :=
          List.map_eq_nil_iff.mp hf
        have hnone : ∀ l ∈ ls,
            (matchesListener l e os.state ns.state && l.oneShot) = false := by
          intro l hl
          cases hb : matchesListener l e os.state ns.state with
          | false => rfl
          | true =>
            cases hc : l.oneShot with
            | false => rfl
            | true =>
              exfalso
              have hmem : l ∈ (ls.filter
                  (fun x => matchesListener x e os.state ns.state)).filter
                  (fun x => x.oneShot) :=
                List.mem_filter.mpr ⟨List.mem_filter.mpr ⟨hl, hb⟩, hc⟩
              rw [hshot] at hmem
              exact (List.not_mem_nil l) hmem
        simp only [hf, List.isEmpty_nil, if_true, finalStore, Option.getD]
        exact (List.filter_eq_self.mpr (fun l hl => by simp [hnone l hl])).symm
      · have hfne : ((((ls.filter (fun l => matchesListener l e os.state ns.state)).filter
            (fun l => l.oneShot)).map (fun l => l.id))).isEmpty = false := by
          simpa [List.isEmpty_iff] using hf
        simp only [hfne, Bool.false_eq_true, if_false, finalStore, Option.getD]
        exact filter_fired_eq (fun l => l.id) (fun l => l.oneShot)
          (fun l => matchesListener l e os.state ns.state) ls hnd

/-- C2 (counterexample): in the session-injection variant, a matched
one-shot rule is not retired when no session key resolves — the
handler returns early with no write at all, so it is not the case
that exactly the matched one-shot rules are removed. -/
theorem retirement_skipped_without_session_key :
    matchesWatcher
      { id := "a1", entityId := "light.bedroom", toState := some "on",
        message := "m", oneShot := true, createdAt := "" }
      "light.bedroom" "off" "on" = true ∧
    handleStateChangedW
      [{ id := "a1", entityId := "light.bedroom", toState := some "on",
         message := "m", oneShot := true, createdAt := "" }]
      none
      { entity_id := "light.bedroom",
        old_state := some { state := "off" },
        new_state := some { state := "on" } }
      = ⟨[], none⟩ := by
  constructor
  · decide
  · decide

/-- C2 (amended): for a state-change event with both snapshots
present, when the loaded rules have pairwise-distinct ids, the store
content after the handler keeps exactly the loaded rules that are not
matched one-shot rules (at most one whole-file overwrite, by the
shape of `HandlerResult`) — unconditionally in the subprocess
(listener) variant, and provided a truthy (non-empty) session key
resolves in the session-injection (watcher) variant. -/
theorem oneShot_retirement_exact_amended (ws : List Watcher) (ls : List Listener)
    (sessionKey : Option String) (d : StateChangedData) (os ns : StateSnap)
    (h1 : d.old_state = some os) (h2 : d.new_state = some ns)
    (hk : strTruthy sessionKey = true)
    (hndW : (ws.map (fun w => w.id)).Nodup)
    (hndL : (ls.map (fun l => l.id)).Nodup) :
    finalStore (handleStateChangedW ws sessionKey d) ws
      = ws.filter (fun w => !(matchesWatcher w d.entity_id os.state ns.state && w.oneShot)) ∧
    finalStore (handleStateChangedL ls d) ls
      = ls.filter (fun l => !(matchesListener l d.entity_id os.state ns.state && l.oneShot)) :=
  ⟨finalStoreW_eq ws sessionKey d os ns h1 h2 hk hndW,
   finalStoreL_eq ls d os ns h1 h2 hndL⟩


/-- C2 (witness): the worked example of the spec — a one-shot rule on
`toState:"on"` and a recurring unfiltered rule, both on
`light.bedroom`; after an off-to-on transition the store retains only
the recurring rule. -/
theorem oneShot_retirement_exact_amended_witness :
    finalStore
      (handleStateChangedW
        [{ id := "a1", entityId := "light.bedroom", toState := some "on",
           message := "m1", oneShot := true, createdAt := "" },
         { id := "a2", entityId := "light.bedroom",
           message := "m2", oneShot := false, createdAt := "" }]
        (some "sess")
        { entity_id := "light.bedroom",
          old_state := some { state := "off" },
          new_state := some { state := "on" } })
      [{ id := "a1", entityId := "light.bedroom", toState := some "on",
         message := "m1", oneShot := true, createdAt := "" },
       { id := "a2", entityId := "light.bedroom",
         message := "m2", oneShot := false, createdAt := "" }]
      = List.filter
          (fun w => !(matchesWatcher w "light.bedroom" "off" "on" && w.oneShot))
          [{ id := "a1", entityId := "light.bedroom", toState := some "on",
             message := "m1", oneShot := true, createdAt := "" },
           { id := "a2", entityId := "light.bedroom",
             message := "m2", oneShot := false, createdAt := "" }] ∧
    finalStore
      (handleStateChangedL
        [{ id := "b1", entityId := "light.bedroom", toState := some "on",
           message := "m1", oneShot := true, createdAt := "" }]
        { entity_id := "light.bedroom",
          old_state := some { state := "off" },
          new_state := some { state := "on" } })
      [{ id := "b1", entityId := "light.bedroom", toState := some "on",
         message := "m1", oneShot := true, createdAt := "" }]
      = List.filter
          (fun l => !(matchesListener l "light.bedroom" "off" "on" && l.oneShot))
          [{ id := "b1", entityId := "light.bedroom", toState := some "on",
             message := "m1", oneShot := true, createdAt := "" }] :=
  oneShot_retirement_exact_amended
    [{ id := "a1", entityId := "light.bedroom", toState := some "on",
       message := "m1", oneShot := true, createdAt := "" },
     { id := "a2", entityId := "light.bedroom",
       message := "m2", oneShot := false, createdAt := "" }]
    [{ id := "b1", entityId := "light.bedroom", toState := some "on",
       message := "m1", oneShot := true, createdAt := "" }]
    (some "sess")
    { entity_id := "light.bedroom",
      old_state := some { state := "off" },
      new_state := some { state := "on" } }
    { state := "off" } { state := "on" }
    rfl rfl (by decide) (by decide) (by decide)

/-- C6: when the prior snapshot is absent, the new snapshot is
absent, the state string did not change, or no stored rule matches,
both handlers deliver nothing and never write the store. -/
theorem handler_frame_noop_cases (ws : List Watcher) (ls : List Listener)
    (sk : Option String) (d : StateChangedData)
    (h : d.old_state = none ∨ d.new_state = none ∨
      (∃ os ns, d.old_state = some os ∧ d.new_state = some ns ∧
        (os.state = ns.state ∨
          (ws.filter (fun w => matchesWatcher w d.entity_id os.state ns.state) = [] ∧
           ls.filter (fun l => matchesListener l d.entity_id os.state ns.state) = [])))) :
    handleStateChangedW ws sk d = ⟨[], none⟩ ∧
    handleStateChangedL ls d = ⟨[], none⟩ := by
  obtain ⟨e, oldo, newo⟩ := d
  rcases h with h | h | ⟨os, ns, h1, h2, h3⟩
  · obtain rfl : oldo = none := h
    cases newo <;> exact ⟨rfl, rfl⟩
  · obtain rfl : newo = none := h
    cases oldo <;> exact ⟨rfl, rfl⟩
  · subst h1; subst h2
    rcases h3 with hss | ⟨hmW, hmL⟩
    · have hbeq : (os.state == ns.state) = true := by simp [hss]
      constructor
      · simp only [handleStateChangedW, hbeq, if_true]
      · simp only [handleStateChangedL, hbeq, if_true]
    · constructor
      · simp only [handleStateChangedW, hmW]
        split <;> rfl
      · simp only [handleStateChangedL, hmL]
        split <;> rfl

/-- C10: in the session-injection variant, when both snapshots are
present and at least one rule matches but no session key resolves,
the handler delivers nothing and leaves the store unwritten. -/
theorem no_session_key_skips_delivery_and_retirement (ws : List Watcher)
    (d : StateChangedData) (os ns : StateSnap)
    (h1 : d.old_state = some os) (h2 : d.new_state = some ns)
    (hm : ws.filter (fun w => matchesWatcher w d.entity_id os.state ns.state) ≠ []) :
    handleStateChangedW ws none d = ⟨[], none⟩ := by
  obtain ⟨e, oldo, newo⟩ := d
  subst h1; subst h2
  simp only [handleStateChangedW]
  split
  · rfl
  · split
    · rfl
    · rfl

/-- C10 (witness). -/
theorem no_session_key_skips_delivery_and_retirement_witness :
    handleStateChangedW
      [{ id := "a1", entityId := "light.bedroom", toState := some "on",
         message := "m1", oneShot := true, createdAt := "" }]
      none
      { entity_id := "light.bedroom",
        old_state := some { state := "off" },
        new_state := some { state := "on" } }
      = ⟨[], none⟩ :=
  no_session_key_skips_delivery_and_retirement
    [{ id := "a1", entityId := "light.bedroom", toState := some "on",
       message := "m1", oneShot := true, createdAt := "" }]
    { entity_id := "light.bedroom",
      old_state := some { state := "off" },
      new_state := some { state := "on" } }
    { state := "off" } { state := "on" } rfl rfl (by decide)

/-- C6 (witness): an event whose prior snapshot is absent. -/
theorem handler_frame_noop_cases_witness :
    handleStateChangedW
      [{ id := "a1", entityId := "light.bedroom",
         message := "m1", oneShot := true, createdAt := "" }]
      (some "sess")
      { entity_id := "light.bedroom", old_state := none,
        new_state := some { state := "on" } }
      = ⟨[], none⟩ ∧
    handleStateChangedL []
      { entity_id := "light.bedroom", old_state := none,
        new_state := some { state := "on" } }
      = ⟨[], none⟩ :=
  handler_frame_noop_cases
    [{ id := "a1", entityId := "light.bedroom",
       message := "m1", oneShot := true, createdAt := "" }]
    []
    (some "sess")
    { entity_id := "light.bedroom", old_state := none,
      new_state := some { state := "on" } }
    (Or.inl rfl)


/-- One failure cycle (socket close, then the reconnect timer fires)
from a freshly connected state: it emits the current delay and a new
connection attempt, and continues from a freshly connected state with
the doubled-and-capped delay. -/
theorem run_fail_cycle (dl : Nat) (rest : List SEvent) :
    run (connState dl) (.sockClose :: .reconnectFire :: rest)
      = ((run (connState (min (dl * 2) 30000)) rest).1,
         SOut.scheduled dl :: SOut.attempt ::
           (run (connState (min (dl * 2) 30000)) rest).2) := by
  simp [run, step, scheduleReconnect, connect, clearTimers, connState]

/-- Delays scheduled by `n` consecutive failures starting from a
connected state whose current delay is the `k`-th backoff value. -/
theorem run_failTrace_delays (n : Nat) :
    ∀ k : Nat,
      scheduledDelays (run (connState (1000 * min (2 ^ k) 30)) (failTrace n)).2
        = (List.range n).map (fun i => 1000 * min (2 ^ (k + i)) 30) := by
  induction n with
  | zero => intro k; simp [failTrace, run, scheduledDelays]
  | succ n ih =>
    intro k
    have harith : min ((1000 * min (2 ^ k) 30) * 2) 30000
        = 1000 * min (2 ^ (k + 1)) 30 := by
      have h2 : (2 : Nat) ^ (k + 1) = 2 * 2 ^ k := by ring
      rw [h2]
      generalize (2 : Nat) ^ k = a
      omega
    rw [failTrace, run_fail_cycle, harith]
    simp only [scheduledDelays, List.filterMap_cons]
    rw [show (List.range (n + 1)) = 0 :: (List.range n).map Nat.succ from
      List.range_succ_eq_map n]
    simp only [List.map_cons, List.map_map]
    have := ih (k + 1)
    simp only [scheduledDelays] at this
    have hfun : (fun i => 1000 * (min (2 ^ (k + 1 + i)) 30))
        = ((fun i => 1000 * (min (2 ^ (k + i)) 30)) ∘ Nat.succ) := by
      funext i
      simp only [Function.comp_apply]
      rw [show k + 1 + i = k + Nat.succ i from by omega]
    rw [this, hfun]
    simp


/-- C3: starting from a fresh connection, the delays scheduled by `n`
consecutive failed attempts are 1000·min(2^k, 30) milliseconds for
k = 0, 1, …, n−1 (1, 2, 4, 8, 16, 30, 30, … seconds); a successful
socket open resets the stored delay to 1000 ms, so the next scheduled
delay after an open is 1000 ms. -/
theorem reconnect_backoff_doubles_caps_resets (n : Nat) (s : Session)
    (hs : s.stopped = false) :
    scheduledDelays (run (connState 1000) (failTrace n)).2
      = (List.range n).map (fun k => 1000 * min (2 ^ k) 30)
    ∧ (step s .sockOpen).1.reconnectDelay = 1000
    ∧ scheduledDelays (run (step s .sockOpen).1 [SEvent.sockClose]).2 = [1000] := by
  refine ⟨?_, rfl, ?_⟩
  · have h := run_failTrace_delays n 0
    simpa using h
  · simp [run, step, scheduleReconnect, clearTimers, scheduledDelays, hs]

/-- C3 (witness): seven consecutive failures from a fresh connection,
and the reset behaviour from the initial state. -/
theorem reconnect_backoff_doubles_caps_resets_witness :
    scheduledDelays (run (connState 1000) (failTrace 7)).2
      = (List.range 7).map (fun k => 1000 * min (2 ^ k) 30)
    ∧ (step Session.initial .sockOpen).1.reconnectDelay = 1000
    ∧ scheduledDelays (run (step Session.initial .sockOpen).1 [SEvent.sockClose]).2
        = [1000] :=
  reconnect_backoff_doubles_caps_resets 7 Session.initial rfl

/-- Once the stopped flag is set, close and error stimuli neither
schedule a reconnect nor attempt a connection, and the flag stays
set. -/
theorem stopped_run_passive (evs : List SEvent) :
    ∀ s : Session, s.stopped = true →
      (∀ e ∈ evs, e = SEvent.sockClose ∨ e = SEvent.sockError) →
      (run s evs).1.stopped = true ∧ (run s evs).2.filter isConnActivity = [] := by
  induction evs with
  | nil => intro s hs _; exact ⟨hs, rfl⟩
  | cons e es ih =>
    intro s hs hevs
    have hes : ∀ x ∈ es, x = SEvent.sockClose ∨ x = SEvent.sockError :=
      fun x hx => hevs x (List.mem_cons_of_mem e hx)
    rcases hevs e (List.mem_cons_self e es) with rfl | rfl
    · have h1 := ih { (clearTimers s) with wsLive := false } hs hes
      constructor
      · simpa [run, step, scheduleReconnect, clearTimers, hs] using h1.1
      · simpa [run, step, scheduleReconnect, clearTimers, hs, isConnActivity] using h1.2
    · have h1 := ih s hs hes
      constructor
      · simpa [run, step] using h1.1
      · simpa [run, step, isConnActivity] using h1.2

/-- C4: receiving `auth_invalid` marks the session stopped and closes
a live socket; afterwards, under any sequence of socket close and
error stimuli, no reconnect is scheduled and no connection attempt
occurs, and the session stays stopped. -/
theorem auth_invalid_stops_forever (s : Session) (m : String) (evs : List SEvent)
    (hevs : ∀ e ∈ evs, e = SEvent.sockClose ∨ e = SEvent.sockError) :
    (handleMessage s (.authInvalid m)).1.stopped = true
    ∧ (s.wsLive = true → (handleMessage s (.authInvalid m)).2 = [SOut.closedWs])
    ∧ (handleMessage s (.authInvalid m)).2.filter isConnActivity = []
    ∧ (run (handleMessage s (.authInvalid m)).1 evs).2.filter isConnActivity = []
    ∧ (run (handleMessage s (.authInvalid m)).1 evs).1.stopped = true := by
  have hstop : (handleMessage s (.authInvalid m)).1.stopped = true := rfl
  have hrun := stopped_run_passive evs (handleMessage s (.authInvalid m)).1 hstop hevs
  refine ⟨hstop, ?_, ?_, hrun.2, hrun.1⟩
  · intro hws; simp [handleMessage, hws]
  · cases hws : s.wsLive <;> simp [handleMessage, hws, isConnActivity]

/-- C4 (witness): a connected session receives `auth_invalid` and is
then hit by close, error, close. -/
theorem auth_invalid_stops_forever_witness :
    (handleMessage (connState 1000) (.authInvalid "bad token")).1.stopped = true
    ∧ ((connState 1000).wsLive = true →
        (handleMessage (connState 1000) (.authInvalid "bad token")).2 = [SOut.closedWs])
    ∧ (handleMessage (connState 1000) (.authInvalid "bad token")).2.filter
        isConnActivity = []
    ∧ (run (handleMessage (connState 1000) (.authInvalid "bad token")).1
        [SEvent.sockClose, SEvent.sockError, SEvent.sockClose]).2.filter
        isConnActivity = []
    ∧ (run (handleMessage (connState 1000) (.authInvalid "bad token")).1
        [SEvent.sockClose, SEvent.sockError, SEvent.sockClose]).1.stopped = true :=
  auth_invalid_stops_forever (connState 1000) "bad token"
    [SEvent.sockClose, SEvent.sockError, SEvent.sockClose] (by decide)


/-- A store written by the watcher handler is a filtering of the
loaded rules. -/
theorem handleW_newStore_filter (ws : List Watcher) (sk : Option String)
    (d : StateChangedData) (ws2 : List Watcher)
    (h : (handleStateChangedW ws sk d).newStore = some ws2) :
    ∃ p, ws2 = ws.filter p := by
  unfold handleStateChangedW at h
  rcases d with ⟨e, oldo, newo⟩
  rcases oldo with _ | os
  · simp at h
  rcases newo with _ | ns
  · simp at h
  simp only at h
  by_cases hss : (os.state == ns.state) = true
  · rw [if_pos hss] at h; simp at h
  · rw [if_neg hss] at h
    by_cases hm : (ws.filter (fun w => matchesWatcher w e os.state ns.state)).isEmpty = true
    · rw [if_pos hm] at h; simp at h
    · rw [if_neg hm] at h
      by_cases hk : (!(strTruthy sk)) = true
      · rw [if_pos hk] at h; simp at h
      · rw [if_neg hk] at h
        by_cases hf : ((((ws.filter (fun w => matchesWatcher w e os.state ns.state)).filter
            (fun w => w.oneShot)).map (fun w => w.id))).isEmpty = true
        · rw [if_pos hf] at h; simp at h
        · rw [if_neg hf] at h
          simp only [Option.some.injEq] at h
          exact ⟨_, h.symm⟩

/-- C7 (counterexample): the code never checks the generated id
against existing ids, so two adds whose `randomUUID()` values share
the same first eight characters produce a reachable store with a
duplicated id. -/
theorem duplicate_id_reachable_on_uuid_collision :
    ReachableW (addWatcher
      (addWatcher .missing "aaaaaaaa-1111-2222-3333-444444444444" "t1"
        { entityId := "light.a", message := "m", oneShot := false }).1
      "aaaaaaaa-5555-6666-7777-888888888888" "t2"
      { entityId := "light.b", message := "m2", oneShot := false }).1
    ∧ ¬ ((loadWatchers (addWatcher
      (addWatcher .missing "aaaaaaaa-1111-2222-3333-444444444444" "t1"
        { entityId := "light.a", message := "m", oneShot := false }).1
      "aaaaaaaa-5555-6666-7777-888888888888" "t2"
      { entityId := "light.b", message := "m2", oneShot := false }).1).map
        (fun w => w.id)).Nodup := by
  constructor
  · exact ReachableW.add _ _ _ _ (ReachableW.add _ _ _ _ ReachableW.init)
  · decide

/-- C7 (amended): under the fresh-id discipline — every add draws an
id not already present, which is what `randomUUID` provides except
for collisions of the 8-character prefix — every reachable store has
pairwise-distinct ids. -/
theorem fresh_ids_reachable_nodup (f : StoreFile Watcher)
    (h : ReachableFreshW f) :
    ((loadWatchers f).map (fun w => w.id)).Nodup := by
  induction h with
  | init => simp [loadWatchers]
  | add f uuid now input hf hfresh ih =>
    simp only [addWatcher, saveWatchers, loadWatchers, List.map_append]
    rw [List.nodup_append]
    refine ⟨ih, List.nodup_singleton _, ?_⟩
    intro a ha hb
    simp only [List.map_cons, List.map_nil, List.mem_singleton] at hb
    subst hb
    exact hfresh ha
  | remove f id hf ih =>
    rcases hfind : (loadWatchers f).findIdx? (fun w => w.id == id) with _ | idx
    · simp only [removeWatcher, hfind]
      exact ih
    · simp only [removeWatcher, hfind]
      simp only [saveWatchers, loadWatchers]
      exact ((List.eraseIdx_sublist (loadWatchers f) idx).map _).nodup ih
  | retire f sk d ws hf hsome ih =>
    rcases handleW_newStore_filter _ _ _ _ hsome with ⟨p, rfl⟩
    simp only [saveWatchers, loadWatchers]
    exact ((List.filter_sublist (loadWatchers f)).map _).nodup ih

/-- C7 (witness): one fresh add from the empty store. -/
theorem fresh_ids_reachable_nodup_witness :
    ((loadWatchers (addWatcher .missing
      "deadbeef-1111-2222-3333-444444444444" "t1"
      { entityId := "light.a", message := "m", oneShot := false }).1).map
        (fun w => w.id)).Nodup :=
  fresh_ids_reachable_nodup _
    (ReachableFreshW.add _ _ _ _ ReachableFreshW.init (by decide))


/-- An 8-character slice of a non-empty string is non-empty. -/
theorem uuidSlice8_ne_empty (uuid : String) (hu : uuid.data ≠ []) :
    uuidSlice8 uuid ≠ "" := by
  intro h
  rw [show ("" : String) = String.mk [] from rfl] at h
  injection h with h2
  rcases List.take_eq_nil_iff.mp h2 with h8 | hd
  · exact absurd h8 (by omega)
  · exact hu hd

/-- C8: adding a listener and loading back yields exactly the
previous entries followed by the created entry, which carries the
supplied `entityId`, `message`, `oneShot`, the generated non-empty
id, and a non-empty creation timestamp (the `randomUUID()` string is
non-empty and the ISO timestamp is non-empty). -/
theorem add_then_load_roundtrip (file : StoreFile Listener) (uuid now : String)
    (input : ListenerInput) (hu : uuid.data ≠ []) (hn : now ≠ "") :
    loadListeners (addListener file uuid now input).1
      = loadListeners file ++ [(addListener file uuid now input).2]
    ∧ (addListener file uuid now input).2.entityId = input.entityId
    ∧ (addListener file uuid now input).2.message = input.message
    ∧ (addListener file uuid now input).2.oneShot = input.oneShot
    ∧ (addListener file uuid now input).2.id = uuidSlice8 uuid
    ∧ (addListener file uuid now input).2.id ≠ ""
    ∧ (addListener file uuid now input).2.createdAt ≠ "" := by
  refine ⟨?_, rfl, rfl, rfl, rfl, ?_, ?_⟩
  · simp [addListener, saveListeners, loadListeners]
  · exact uuidSlice8_ne_empty uuid hu
  · exact hn

/-- C8 (witness). -/
theorem add_then_load_roundtrip_witness :
    loadListeners (addListener (.array
        [{ id := "11111111", entityId := "light.old", message := "old",
           oneShot := false, createdAt := "2025-12-31T00:00:00Z" }])
        "123e4567-e89b-12d3-a456-426614174000" "2026-01-01T00:00:00Z"
        { entityId := "light.bedroom", message := "commit git", oneShot := true }).1
      = loadListeners (.array
        [{ id := "11111111", entityId := "light.old", message := "old",
           oneShot := false, createdAt := "2025-12-31T00:00:00Z" }])
        ++ [(addListener (.array
        [{ id := "11111111", entityId := "light.old", message := "old",
           oneShot := false, createdAt := "2025-12-31T00:00:00Z" }])
        "123e4567-e89b-12d3-a456-426614174000" "2026-01-01T00:00:00Z"
        { entityId := "light.bedroom", message := "commit git", oneShot := true }).2]
    ∧ (addListener (.array
        [{ id := "11111111", entityId := "light.old", message := "old",
           oneShot := false, createdAt := "2025-12-31T00:00:00Z" }])
        "123e4567-e89b-12d3-a456-426614174000" "2026-01-01T00:00:00Z"
        { entityId := "light.bedroom", message := "commit git", oneShot := true }).2.entityId
      = "light.bedroom"
    ∧ (addListener (.array
        [{ id := "11111111", entityId := "light.old", message := "old",
           oneShot := false, createdAt := "2025-12-31T00:00:00Z" }])
        "123e4567-e89b-12d3-a456-426614174000" "2026-01-01T00:00:00Z"
        { entityId := "light.bedroom", message := "commit git", oneShot := true }).2.message
      = "commit git"
    ∧ (addListener (.array
        [{ id := "11111111", entityId := "light.old", message := "old",
           oneShot := false, createdAt := "2025-12-31T00:00:00Z" }])
        "123e4567-e89b-12d3-a456-426614174000" "2026-01-01T00:00:00Z"
        { entityId := "light.bedroom", message := "commit git", oneShot := true }).2.oneShot
      = true
    ∧ (addListener (.array
        [{ id := "11111111", entityId := "light.old", message := "old",
           oneShot := false, createdAt := "2025-12-31T00:00:00Z" }])
        "123e4567-e89b-12d3-a456-426614174000" "2026-01-01T00:00:00Z"
        { entityId := "light.bedroom", message := "commit git", oneShot := true }).2.id
      ≠ ""
    ∧ (addListener (.array
        [{ id := "11111111", entityId := "light.old", message := "old",
           oneShot := false, createdAt := "2025-12-31T00:00:00Z" }])
        "123e4567-e89b-12d3-a456-426614174000" "2026-01-01T00:00:00Z"
        { entityId := "light.bedroom", message := "commit git", oneShot := true }).2.createdAt
      ≠ "" := by
  have h := add_then_load_roundtrip (.array
      [{ id := "11111111", entityId := "light.old", message := "old",
         oneShot := false, createdAt := "2025-12-31T00:00:00Z" }])
      "123e4567-e89b-12d3-a456-426614174000" "2026-01-01T00:00:00Z"
      { entityId := "light.bedroom", message := "commit git", oneShot := true }
      (by decide) (by decide)
  exact ⟨h.1, h.2.1, h.2.2.1, h.2.2.2.1, h.2.2.2.2.2.1, h.2.2.2.2.2.2⟩

end HomeAssistant
